import Mathlib

/-!
Verification of the PyHLS token / authorization core against its
natural-language specification.

The development shallow-embeds the Python sources:
  * `PyHLS/utils.py`  — JWT token codec (`create_access_token`,
    `verify_access_token`, `create_admin_token`, key derivation, hashing);
  * `PyHLS/main.py`   — HTTP handlers (upload, refresh, segment serving,
    delete, info, extend-expiry) and the playlist rewriter;
  * `database.py`     — the JSON file store with its backup-then-replace
    save discipline.

Machine integers do not occur; times are modelled as `Int` seconds since
the epoch (PyJWT serialises the `datetime` claims to integer POSIX
timestamps).  SHA-256 is an arbitrary function parameter `sha256hex`:
none of the verified properties depend on any property of the digest
beyond determinism, so every theorem holds for the real hash.
-/

namespace PyHLS

/-! ### Token codec — `PyHLS/utils.py`

A JWT payload is the claim set the code builds (`media_id`,
`access_key_hash`, `iat`, `exp`, `jti`, `token_type` for access tokens;
`admin`, `admin_key_hash` for admin tokens).  Python payloads are dicts,
so claim lookup with `payload.get` can miss: absent claims are `none`.
A signed token is modelled as its payload together with the key it was
signed with; `jwt.decode` succeeds exactly when the supplied key equals
the signing key and the token is unexpired (PyJWT raises
`ExpiredSignatureError` when `exp <= now`). -/

structure Payload where
  media_id : Option String
  access_key_hash : Option String
  admin : Option Bool
  admin_key_hash : Option String
  iat : Int
  exp : Int
  jti : String
  token_type : Option String
deriving DecidableEq, Repr

structure Token where
  payload : Payload
  sig_key : String
deriving DecidableEq, Repr

inductive JwtError where
  | expiredSignature
  | invalidToken
deriving DecidableEq, Repr

def jwt_encode (payload : Payload) (key : String) : Token :=
  ⟨payload, key⟩

def jwt_decode (tok : Token) (key : String) (now : Int) : Except JwtError Payload :=
  if tok.sig_key ≠ key then Except.error JwtError.invalidToken
  else if tok.payload.exp ≤ now then Except.error JwtError.expiredSignature
  else Except.ok tok.payload

/-- `generate_signing_key` (utils.py:79): sha256 hex digest of
`f"{secret_key}:{access_key}"`. -/
def generate_signing_key (sha256hex : String → String)
    (secret_key access_key : String) : String :=
  sha256hex (secret_key ++ ":" ++ access_key)

/-- `hash_string` (utils.py:84): sha256 hex digest of the value. -/
def hash_string (sha256hex : String → String) (value : String) : String :=
  sha256hex value

/-- `create_access_token` (utils.py:31): payload
`{media_id, access_key_hash, iat = now, exp = now + expiry_minutes
minutes, jti, token_type = "access"}`, signed with
`generate_signing_key(SECRET_KEY, access_key)`.  `now` (seconds) and the
random `token_id` are explicit parameters. -/
def create_access_token (sha256hex : String → String) (secret_key : String)
    (media_id access_key : String) (expiry_minutes : Int)
    (now : Int) (token_id : String) : Token :=
  jwt_encode
    { media_id := some media_id
      access_key_hash := some (hash_string sha256hex access_key)
      admin := none
      admin_key_hash := none
      iat := now
      exp := now + expiry_minutes * 60
      jti := token_id
      token_type := some "access" }
    (generate_signing_key sha256hex secret_key access_key)

/-- `verify_access_token` (utils.py:51): decode with the re-derived
signing key (any decode / expiry / signature failure yields `false`),
then require `token_type == "access"`, `media_id == expected_video_id`,
and `access_key_hash == hash_string(access_key)`. -/
def verify_access_token (sha256hex : String → String) (secret_key : String)
    (token : Token) (expected_video_id access_key : String)
    (now : Int) : Bool :=
  match jwt_decode token (generate_signing_key sha256hex secret_key access_key) now with
  | Except.error _ => false
  | Except.ok payload =>
    if payload.token_type ≠ some "access" then false
    else if payload.media_id ≠ some expected_video_id then false
    else if payload.access_key_hash ≠ some (hash_string sha256hex access_key) then false
    else true

/-- `create_admin_token` (utils.py:109): payload
`{admin = True, admin_key_hash, iat, exp = now + expiry_hours hours,
jti, token_type = "admin"}`, signed directly with `SECRET_KEY`. -/
def create_admin_token (sha256hex : String → String) (secret_key : String)
    (admin_key : String) (expiry_hours : Int)
    (now : Int) (token_id : String) : Token :=
  jwt_encode
    { media_id := none
      access_key_hash := none
      admin := some true
      admin_key_hash := some (hash_string sha256hex admin_key)
      iat := now
      exp := now + expiry_hours * 3600
      jti := token_id
      token_type := some "admin" }
    secret_key

/-! ### Resource records and the metadata store — `main.py` / `database.py`

A resource record is the dict built by `upload_media`, possibly extended
by the mutating handlers.  Fields the code reads through `dict.get`
(`expiry_minutes` with default 60, the audit timestamps) are `Option`s.
The store is the JSON document: a key-ordered mapping from `public_id`
to records, modelled as an association list with unique insertion-order
keys exactly like a Python dict: assignment replaces in place or
appends, `del` removes the binding. -/

structure MediaRecord where
  public_id : String
  internal_id : String
  access_key : String
  admin_key : String
  upload_time : String
  expiry_minutes : Option Int
  last_token_refresh : Option String
  expiry_extended_at : Option String
  created_at : Option String
  updated_at : Option String
deriving DecidableEq, Repr

abbrev DB := List (String × MediaRecord)

def db_get (db : DB) (k : String) : Option MediaRecord :=
  match db with
  | [] => none
  | p :: rest => if p.1 = k then some p.2 else db_get rest k

def db_set (db : DB) (k : String) (v : MediaRecord) : DB :=
  match db with
  | [] => [(k, v)]
  | p :: rest => if p.1 = k then (k, v) :: rest else p :: db_set rest k v

def db_del (db : DB) (k : String) : DB :=
  match db with
  | [] => []
  | p :: rest => if p.1 = k then rest else p :: db_del rest k

/-- `VideoDatabase.update_video` (database.py:68): overwrite the record
under `public_id` (stamping `updated_at`) only when the key is already
present; report whether an update happened. -/
def update_video (db : DB) (k : String) (v : MediaRecord) (nowIso : String) : DB × Bool :=
  match db_get db k with
  | some _ => (db_set db k { v with updated_at := some nowIso }, true)
  | none => (db, false)

/-- `VideoDatabase.store_video` (database.py:50): stamp `created_at` and
`updated_at`, then assign under `public_id`. -/
def store_video (db : DB) (k : String) (v : MediaRecord) (nowIso : String) : DB :=
  db_set db k { v with created_at := some nowIso, updated_at := some nowIso }

/-- HTTP results: an `HTTPException(status, detail)` or a JSON body. -/
inductive ApiResult (α : Type) where
  | error (status : Nat) (detail : String)
  | ok (value : α)
deriving DecidableEq, Repr

/-- The fields of the JSON body returned by `extend_media_expiry`,
minus the constant message. -/
structure ExtendResp where
  media_id : String
  previous_expiry_minutes : Int
  new_expiry_minutes : Int
  extended_by_minutes : Int
deriving DecidableEq, Repr

/-- `extend_media_expiry` (main.py:216): 404 on unknown id, 403 on admin
key mismatch, otherwise bump `expiry_minutes` by `additional_minutes`
capped at 10080, stamp `expiry_extended_at`, persist through
`update_video`, and report previous/new/delta. -/
def extend_media_expiry (db : DB) (media_id admin_key : String)
    (additional_minutes : Int) (nowIso : String) : ApiResult ExtendResp × DB :=
  match db_get db media_id with
  | none => (ApiResult.error 404 "Media not found!", db)
  | some media_data =>
    if media_data.admin_key ≠ admin_key then (ApiResult.error 403 "Invalid admin key!", db)
    else
      let current_expiry := media_data.expiry_minutes.getD 60
      let new_expiry := min (current_expiry + additional_minutes) 10080
      let media2 := { media_data with
        expiry_minutes := some new_expiry
        expiry_extended_at := some nowIso }
      ( ApiResult.ok ⟨media_id, current_expiry, new_expiry, new_expiry - current_expiry⟩,
        (update_video db media_id media2 nowIso).1 )

def sample_record : MediaRecord :=
  ⟨"pub1", "int1", "ak1", "adm1", "2026-01-01T00:00:00", some 60, none, none, none, none⟩

/-! ### String and POSIX path primitives

Python's `str.startswith` / `str.endswith` / substring containment and
`posixpath.join` (the server runs on a POSIX `os.sep = "/"`), modelled
at the character-list level so that every later claim can be settled by
computation. -/

def py_startswith (s pre : String) : Bool :=
  pre.toList.isPrefixOf s.toList

def py_endswith (s suf : String) : Bool :=
  suf.toList.isSuffixOf s.toList

def sub_list (pat : List Char) : List Char → Bool
  | [] => pat.isEmpty
  | c :: rest => pat.isPrefixOf (c :: rest) || sub_list pat rest

/-- Python's `pat in s` substring containment. -/
def str_contains (s pat : String) : Bool :=
  sub_list pat.toList s.toList

/-- `posixpath.join` for two components (`os.path.join` chains it). -/
def path_join (a b : String) : String :=
  if py_startswith b "/" then b
  else if a = "" ∨ py_endswith a "/" then a ++ b
  else a ++ "/" ++ b

/-- `HLS_ROOT = os.path.join("media", "hls")` (main.py:13). -/
def HLS_ROOT : String := path_join "media" "hls"

/-! ### Admin-gated handlers — `main.py` -/

/-- The variable fields of the JSON body returned by
`refresh_access_token`. -/
structure RefreshResp where
  media_id : String
  access_token : Token
  expires_in_minutes : Int
deriving DecidableEq, Repr

/-- `refresh_access_token` (main.py:73): 404 on unknown id, 403 on admin
key mismatch, 404 if the backing playlist file is gone, otherwise mint a
fresh access token, update `expiry_minutes` and `last_token_refresh`,
and persist through `update_video`.  `fs_has` is the filesystem's
`os.path.exists`. -/
def refresh_access_token (db : DB) (fs_has : String → Bool)
    (sha256hex : String → String) (secret_key : String)
    (media_id admin_key : String) (expiry_minutes : Int)
    (now : Int) (token_id nowIso : String) : ApiResult RefreshResp × DB :=
  match db_get db media_id with
  | none => (ApiResult.error 404 "Media not found!", db)
  | some media_data =>
    if media_data.admin_key ≠ admin_key then (ApiResult.error 403 "Invalid admin key!", db)
    else
      let hls_dir := path_join HLS_ROOT media_data.internal_id
      let playlist_path := path_join hls_dir "playlist.m3u8"
      if ¬ fs_has playlist_path then (ApiResult.error 404 "Media files not found!", db)
      else
        let access_token := create_access_token sha256hex secret_key media_id
          media_data.access_key expiry_minutes now token_id
        let media2 := { media_data with
          expiry_minutes := some expiry_minutes
          last_token_refresh := some nowIso }
        ( ApiResult.ok ⟨media_id, access_token, expiry_minutes⟩,
          (update_video db media_id media2 nowIso).1 )

/-- `shutil.rmtree`: drop the directory and everything below it. -/
def rmtree (fs : List String) (dir : String) : List String :=
  fs.filter (fun p => !(p == dir || py_startswith p (dir ++ "/")))

/-- `delete_media` (main.py:165): 404 on unknown id, 403 on admin key
mismatch, otherwise delete the record (`del contents[media_id]` +
`_save_database`) and remove the backing HLS directory if present. -/
def delete_media (db : DB) (fs : List String) (media_id admin_key : String) :
    ApiResult String × DB × List String :=
  match db_get db media_id with
  | none => (ApiResult.error 404 "Media not found!", db, fs)
  | some media_data =>
    if media_data.admin_key ≠ admin_key then (ApiResult.error 403 "Invalid admin key!", db, fs)
    else
      let hls_dir := path_join HLS_ROOT media_data.internal_id
      let fs2 := if fs.contains hls_dir then rmtree fs hls_dir else fs
      (ApiResult.ok "Media successfully deleted!", db_del db media_id, fs2)

/-- The JSON body returned by `get_media_info`. -/
structure InfoResp where
  media_id : String
  upload_time : String
  expiry_minutes : Int
  last_token_refresh : Option String
  created_at : Option String
  updated_at : Option String
deriving DecidableEq, Repr

/-- `get_media_info` (main.py:192): 404 on unknown id, 403 on admin key
mismatch, otherwise a read-only metadata dump. -/
def get_media_info (db : DB) (media_id admin_key : String) : ApiResult InfoResp × DB :=
  match db_get db media_id with
  | none => (ApiResult.error 404 "Media not found!", db)
  | some d =>
    if d.admin_key ≠ admin_key then (ApiResult.error 403 "Invalid admin key!", db)
    else
      ( ApiResult.ok ⟨media_id, d.upload_time, d.expiry_minutes.getD 60,
          d.last_token_refresh, d.created_at, d.updated_at⟩, db )

/-! ### Upload — `main.py` -/

/-- The variable fields of the JSON body returned by `upload_media`. -/
structure UploadResp where
  media_id : String
  access_token : Token
  admin_key : String
  expires_in_minutes : Int
deriving DecidableEq, Repr

/-- `os.makedirs(p, exist_ok=True)` / `open(p, "wb")`: ensure the path
is present. -/
def fs_add (fs : List String) (p : String) : List String :=
  if fs.contains p then fs else fs ++ [p]

/-- `os.remove`: drop exactly the named path. -/
def fs_remove (fs : List String) (p : String) : List String :=
  fs.filter (fun q => !(q == p))

/-- `upload_media` (main.py:19): create the HLS directory and save the
uploaded file under `internal_media_id`, run the encoder (its success is
the parameter `encoder_ok` — the encoder itself is an external
collaborator), on failure remove the partial output directory and raise
500, always remove the original upload (`finally:`), and only on success
persist the metadata record and mint the initial access token.  The
returned filesystem is the state at the moment the response is
produced.  The fresh identifiers and keys (`uuid4().hex` each) are
explicit parameters, as are the clock and the token id. -/
def upload_media (fs : List String) (db : DB)
    (sha256hex : String → String) (secret_key : String)
    (internal_media_id public_media_id access_key admin_key : String)
    (expiry_minutes : Int) (encoder_ok : Bool)
    (now : Int) (token_id nowIso : String) : ApiResult UploadResp × List String × DB :=
  let media_path := path_join HLS_ROOT (internal_media_id ++ ".mp4")
  let hls_dir := path_join HLS_ROOT internal_media_id
  let fs1 := fs_add fs hls_dir
  let fs2 := fs_add fs1 media_path
  if encoder_ok then
    let fs3 := fs_add fs2 (path_join hls_dir "playlist.m3u8")
    let fs4 := if fs3.contains media_path then fs_remove fs3 media_path else fs3
    let record : MediaRecord :=
      ⟨public_media_id, internal_media_id, access_key, admin_key, nowIso,
        some expiry_minutes, none, none, none, none⟩
    let db2 := store_video db public_media_id record nowIso
    let access_token := create_access_token sha256hex secret_key public_media_id
      access_key expiry_minutes now token_id
    (ApiResult.ok ⟨public_media_id, access_token, admin_key, expiry_minutes⟩, fs4, db2)
  else
    let fs3 := rmtree fs2 hls_dir
    let fs4 := if fs3.contains media_path then fs_remove fs3 media_path else fs3
    (ApiResult.error 500 "Encoding failed!", fs4, db)

/-- The filesystem state at the moment the 500 response leaves
`upload_media`: directory and upload created, partial output removed by
`shutil.rmtree`, original upload removed by the `finally:` block. -/
def upload_fail_fs (fs : List String) (iid : String) : List String :=
  let media_path := path_join HLS_ROOT (iid ++ ".mp4")
  let fs3 := rmtree (fs_add (fs_add fs (path_join HLS_ROOT iid)) media_path) (path_join HLS_ROOT iid)
  if fs3.contains media_path then fs_remove fs3 media_path else fs3

/-- The filesystem state at the moment the success response leaves
`upload_media`. -/
def upload_ok_fs (fs : List String) (iid : String) : List String :=
  let media_path := path_join HLS_ROOT (iid ++ ".mp4")
  let fs3 := fs_add (fs_add (fs_add fs (path_join HLS_ROOT iid)) media_path)
    (path_join (path_join HLS_ROOT iid) "playlist.m3u8")
  if fs3.contains media_path then fs_remove fs3 media_path else fs3

/-! ### POSIX path canonicalization — `os.path` as used by `get_segment`

`posixpath.normpath`: split on `/`, drop empty and `.` components,
resolve `..` against the accumulated components (keeping leading `..`s
of a relative path), and re-join, preserving one or exactly two leading
slashes.  `posixpath.abspath p = normpath(join(cwd, p))` for relative
`p`.  The current working directory of the server process is the
parameter `cwd`. -/

def splitOnChar (c : Char) : List Char → List (List Char)
  | [] => [[]]
  | x :: xs =>
    if x = c then [] :: splitOnChar c xs
    else
      match splitOnChar c xs with
      | [] => [[x]]
      | h :: t => (x :: h) :: t

def normpath_step (absolute : Bool) (acc : List (List Char)) (comp : List Char) : List (List Char) :=
  if comp = [] ∨ comp = ['.'] then acc
  else if comp ≠ ['.', '.'] then acc ++ [comp]
  else if (¬ absolute ∧ acc = []) ∨ acc.getLast? = some ['.', '.'] then acc ++ [comp]
  else if acc ≠ [] then acc.dropLast
  else acc

def normpath (path : String) : String :=
  if path = "" then "."
  else
    let l := path.toList
    let slashes : Nat :=
      if py_startswith path "/" then
        if py_startswith path "//" ∧ ¬ py_startswith path "///" then 2 else 1
      else 0
    let newComps := (splitOnChar '/' l).foldl (normpath_step (slashes ≠ 0)) []
    let result := String.mk (List.replicate slashes '/' ++ List.intercalate ['/'] newComps)
    if result = "" then "." else result

def abspath (cwd : String) (p : String) : String :=
  if py_startswith p "/" then normpath p else normpath (path_join cwd p)

/-- `get_segment` (main.py:137): 404 on unknown id, 403 on a bad token,
400 when the segment name fails the string checks (`.ts` extension, no
`/`, no `..`), 400 when the canonicalized joined path does not lie
strictly inside the canonicalized resource directory, 404 when the
validated path does not exist, otherwise serve the file at the
canonicalized path. -/
def get_segment (db : DB) (fs_has : String → Bool) (cwd : String)
    (sha256hex : String → String) (secret_key : String)
    (media_id segment_name : String) (token : Token) (now : Int) : ApiResult String :=
  match db_get db media_id with
  | none => ApiResult.error 404 "Media not found!"
  | some media_data =>
    if ¬ verify_access_token sha256hex secret_key token media_id media_data.access_key now then
      ApiResult.error 403 "Invalid or expired access token!"
    else if ¬ py_endswith segment_name ".ts" ∨ str_contains segment_name "/" ∨
        str_contains segment_name ".." then
      ApiResult.error 400 "Invalid segment name!"
    else
      let segment_path := path_join (path_join HLS_ROOT media_data.internal_id) segment_name
      let abs_hls_dir := abspath cwd (path_join HLS_ROOT media_data.internal_id)
      let norm_segment_path := abspath cwd (normpath segment_path)
      if ¬ py_startswith norm_segment_path (abs_hls_dir ++ "/") then
        ApiResult.error 400 "Invalid segment path!"
      else if ¬ fs_has norm_segment_path then ApiResult.error 404 "Segment not found"
      else ApiResult.ok norm_segment_path

/-- A concrete valid token for the witness scenario. -/
def sample_token : Token :=
  create_access_token (fun s => s) "sk" "pub1" "ak1" 60 0 "j"

/-! ### The JSON document store — `database.py`

`_save_database` writes the whole mapping with a backup-then-replace
discipline: rename the current file to `.backup`, truncate and rewrite
the main file, remove the backup on success; if the write raises, the
`except` handler renames the backup over the main file and re-raises.
`_load_database` reads the main file and returns `{}` on
`FileNotFoundError` or `JSONDecodeError`.

A file's content is either the complete serialization of a mapping or a
strict prefix of one (`truncated m k`: the first `k` bytes of
`json.dump(m)`).  A strict prefix of a serialized JSON object is never
itself valid JSON — the final closing brace of the object is missing or
a token is cut — so `json.load` fails on it; `decode` below reflects
exactly that.  An interruption is an exception raised at one of the
three fallible steps inside `_save_database` (the initial rename, the
write itself after some prefix has reached the disk, or the removal of
the backup); the exception handler then runs as written. -/

inductive FileData where
  | whole (m : DB)
  | truncated (m : DB) (k : Nat)
deriving DecidableEq, Repr

structure StoreFs where
  db_file : Option FileData
  backup_file : Option FileData
deriving DecidableEq, Repr

inductive SaveInterrupt where
  | atRename
  | duringWrite (k : Nat)
  | atBackupRemove
deriving DecidableEq, Repr

/-- `if os.path.exists(self.db_path): os.rename(self.db_path, backup_path)`
(database.py:33). -/
def backup_step (fs : StoreFs) : StoreFs :=
  match fs.db_file with
  | some c => { db_file := none, backup_file := some c }
  | none => fs

/-- The `except` handler (database.py:44): restore the backup over the
main file when a backup exists. -/
def restore_step (fs : StoreFs) : StoreFs :=
  match fs.backup_file with
  | some b => { db_file := some b, backup_file := none }
  | none => fs

/-- `VideoDatabase._save_database` (database.py:29) with an optional
interruption point; the `Bool` reports whether the exception propagated
to the caller. -/
def save_database (fs : StoreFs) (data : DB) (intr : Option SaveInterrupt) : StoreFs × Bool :=
  match intr with
  | some SaveInterrupt.atRename => (fs, true)
  | some (SaveInterrupt.duringWrite k) =>
    let fs1 := backup_step fs
    let fs2 := { fs1 with db_file := some (FileData.truncated data k) }
    (restore_step fs2, true)
  | some SaveInterrupt.atBackupRemove =>
    let fs1 := backup_step fs
    let fs2 := { fs1 with db_file := some (FileData.whole data) }
    (restore_step fs2, true)
  | none =>
    let fs1 := backup_step fs
    let fs2 := { fs1 with db_file := some (FileData.whole data) }
    ({ fs2 with backup_file := none }, false)

/-- `VideoDatabase._load_database` (database.py:21): the parsed mapping,
or `{}` when the file is absent or undecodable. -/
def load_database (fs : StoreFs) : DB :=
  match fs.db_file with
  | none => []
  | some (FileData.whole m) => m
  | some (FileData.truncated _ _) => []

/-! ### Playlist rewriting — `rewrite_playlist_with_auth_urls` (main.py:251)

`f.readlines()` yields the manifest's lines with their original endings;
the rewriter maps over them: `line.strip()` (Python strips all leading
and trailing whitespace, not just the newline), chunk lines — stripped
content ending in `.ts` — become
`/stream/{media_id}/{segment_name}?token={auth_token}` with the name's
last `/`-component, every emitted line gets a single `"\n"`, and the
results are concatenated.  The model keeps the line list; the served
body is its concatenation. -/

def pyIsSpace (c : Char) : Bool :=
  c == ' ' || c == '\t' || c == '\n' || c == '\x0b' || c == '\x0c' || c == '\r'

/-- Python `str.strip()`. -/
def py_strip (s : String) : String :=
  String.mk (((s.toList.dropWhile pyIsSpace).reverse.dropWhile pyIsSpace).reverse)

/-- Python `line.split("/")[-1]`. -/
def last_path_component (s : String) : String :=
  ((splitOnChar '/' s.toList).map String.mk).getLastD s

def rewrite_playlist_with_auth_urls (lines : List String) (media_id auth_token : String) :
    List String :=
  lines.map (fun line =>
    let l := py_strip line
    if py_endswith l ".ts" then
      "/stream/" ++ media_id ++ "/" ++ last_path_component l ++ "?token=" ++ auth_token ++ "\n"
    else l ++ "\n")

/-- The values of the `token` query parameters of a URL line: the part
after the sole `?`, split on `&`, each parameter split at `=`. -/
def queryOf (l : List Char) : Option (List Char) :=
  match splitOnChar '?' l with
  | [_, q] => some q
  | _ => none

def tokenParams (line : String) : List (List Char) :=
  match queryOf line.toList with
  | none => []
  | some q =>
    (splitOnChar '&' q).filterMap (fun p =>
      match splitOnChar '=' p with
      | [k, v] => if k = "token".toList then some v else none
      | _ => none)

/-! ### Theorems -/

/-- C1: Round-trip of the token codec — for every resource identity,
access key and validity `m ∈ [1, 10080]`, a token issued by
`create_access_token` verifies under the same identity and key at any
time strictly before `issuedAt + m` minutes. -/
theorem access_token_round_trip (sha256hex : String → String)
    (secret_key media_id access_key : String) (m : Int) (now t : Int)
    (token_id : String) (hm1 : 1 ≤ m) (hm2 : m ≤ 10080)
    (ht : t < now + m * 60) :
    verify_access_token sha256hex secret_key
      (create_access_token sha256hex secret_key media_id access_key m now token_id)
      media_id access_key t = true := by
  have hnle : ¬ (now + m * 60 ≤ t) := by omega
  simp [verify_access_token, create_access_token, jwt_encode, jwt_decode, hnle]

theorem access_token_round_trip_witness :
    (1 : Int) ≤ 60 ∧ (60 : Int) ≤ 10080 ∧ (1000 : Int) < 0 + 60 * 60 ∧
    verify_access_token (fun s => s) "sk" (create_access_token (fun s => s) "sk" "vid" "ak" 60 0 "jti0") "vid" "ak" 1000 = true := by
  refine ⟨by norm_num, by norm_num, by norm_num, ?_⟩
  exact access_token_round_trip (fun s => s) "sk" "vid" "ak" 60 0 1000 "jti0" (by norm_num) (by norm_num) (by norm_num)

/-- Any verification attempt against a token whose `token_type` claim is
not `"access"` fails: either the signature check fails, or the token is
expired, or the explicit kind check fails. -/
theorem verify_false_of_kind (sha256hex : String → String)
    (secret_key : String) (tok : Token) (vid akey : String) (now : Int)
    (h : tok.payload.token_type ≠ some "access") :
    verify_access_token sha256hex secret_key tok vid akey now = false := by
  unfold verify_access_token jwt_decode
  split_ifs with h1 h2 <;> simp_all

/-- Any verification attempt against a token whose `media_id` claim is
not the expected resource identity fails. -/
theorem verify_false_of_media_id (sha256hex : String → String)
    (secret_key : String) (tok : Token) (vid akey : String) (now : Int)
    (h : tok.payload.media_id ≠ some vid) :
    verify_access_token sha256hex secret_key tok vid akey now = false := by
  unfold verify_access_token jwt_decode
  split_ifs with h1 h2 <;> simp_all

/-- C2: Mandatory subject and kind checks — a token issued by
`create_access_token` for a resource `A ≠ B` never verifies for `B`
under `B`'s access key (whether or not the two access keys coincide);
any token whose kind discriminant is `"admin"` instead of `"access"`
(in particular any output of `create_admin_token`) is rejected by
`verify_access_token`, even when structurally valid, correctly signed
and unexpired. -/
theorem mandatory_subject_and_kind_checks (sha256hex : String → String)
    (secret_key A B keyA keyB adm_key : String) (m hrs now t t2 : Int)
    (jti jti2 : String) (tok : Token)
    (hAB : A ≠ B) (hkind : tok.payload.token_type = some "admin") :
    verify_access_token sha256hex secret_key
      (create_access_token sha256hex secret_key A keyA m now jti) B keyB t = false ∧
    verify_access_token sha256hex secret_key tok B keyB t = false ∧
    verify_access_token sha256hex secret_key
      (create_admin_token sha256hex secret_key adm_key hrs now jti2) B keyB t2 = false := by
  refine ⟨?_, ?_, ?_⟩
  · exact verify_false_of_media_id _ _ _ _ _ _ (by simp [create_access_token, jwt_encode, hAB])
  · exact verify_false_of_kind _ _ _ _ _ _ (by simp [hkind])
  · exact verify_false_of_kind _ _ _ _ _ _ (by simp [create_admin_token, jwt_encode])

theorem mandatory_subject_and_kind_checks_witness :
    ("vidA" : String) ≠ "vidB" ∧
    (create_admin_token (fun s => s) "sk" "adm" 24 0 "j9").payload.token_type = some "admin" ∧
    verify_access_token (fun s => s) "sk"
      (create_access_token (fun s => s) "sk" "vidA" "ak" 60 0 "j1") "vidB" "ak" 5 = false := by
  refine ⟨by decide, by decide, ?_⟩
  exact (mandatory_subject_and_kind_checks (fun s => s) "sk" "vidA" "vidB" "ak" "ak" "adm"
    60 24 0 5 5 "j1" "j9" (create_admin_token (fun s => s) "sk" "adm" 24 0 "j9")
    (by decide) (by decide)).1

/-- C3: Expiry boundary — a token issued at `now` for `m` minutes fails
verification at every time strictly after `now + m` minutes (one second
past expiry included), and verifies one second before `now + m` minutes
when subject, key and kind all match. -/
theorem access_token_expiry_boundary (sha256hex : String → String)
    (secret_key media_id access_key : String) (m : Int) (now t : Int)
    (token_id : String) (hgt : now + m * 60 < t) :
    verify_access_token sha256hex secret_key
      (create_access_token sha256hex secret_key media_id access_key m now token_id)
      media_id access_key t = false ∧
    verify_access_token sha256hex secret_key
      (create_access_token sha256hex secret_key media_id access_key m now token_id)
      media_id access_key (now + m * 60 - 1) = true := by
  constructor
  · have hle : now + m * 60 ≤ t := le_of_lt hgt
    simp [verify_access_token, create_access_token, jwt_encode, jwt_decode, hle]
  · have hnle : ¬ (now + m * 60 ≤ now + m * 60 - 1) := by omega
    simp [verify_access_token, create_access_token, jwt_encode, jwt_decode, hnle]

theorem access_token_expiry_boundary_witness :
    (0 : Int) + 60 * 60 < 3601 ∧
    verify_access_token (fun s => s) "sk"
      (create_access_token (fun s => s) "sk" "vid" "ak" 60 0 "j1") "vid" "ak" 3601 = false ∧
    verify_access_token (fun s => s) "sk"
      (create_access_token (fun s => s) "sk" "vid" "ak" 60 0 "j1") "vid" "ak" (0 + 60 * 60 - 1) = true := by
  refine ⟨by norm_num, ?_, ?_⟩
  · exact (access_token_expiry_boundary (fun s => s) "sk" "vid" "ak" 60 0 3601 "j1" (by norm_num)).1
  · exact (access_token_expiry_boundary (fun s => s) "sk" "vid" "ak" 60 0 3601 "j1" (by norm_num)).2

theorem db_get_db_set_self (db : DB) (k : String) (v : MediaRecord) :
    db_get (db_set db k v) k = some v := by
  induction db with
  | nil => simp [db_set, db_get]
  | cons p rest ih =>
    by_cases h : p.1 = k
    · simp [db_set, db_get, h]
    · simp [db_set, db_get, h, ih]

/-- C7: Extend-expiry arithmetic — with the correct admin key and a
stored `expiry_minutes = prev`, extending by `n ∈ [1, 10080]` stores
`min (prev + n) 10080`, reports `previous = prev`,
`new = min (prev + n) 10080`, `extended_by = new - prev`, and the stored
value never exceeds the 10080 cap. -/
theorem extend_expiry_arithmetic (db : DB) (mid akey iso : String)
    (r : MediaRecord) (prev n : Int)
    (hget : db_get db mid = some r) (hkey : r.admin_key = akey)
    (hprev : r.expiry_minutes = some prev) (hn1 : 1 ≤ n) (hn2 : n ≤ 10080) :
    (extend_media_expiry db mid akey n iso).1 =
      ApiResult.ok ⟨mid, prev, min (prev + n) 10080, min (prev + n) 10080 - prev⟩ ∧
    (∃ r', db_get (extend_media_expiry db mid akey n iso).2 mid = some r' ∧
      r'.expiry_minutes = some (min (prev + n) 10080)) ∧
    min (prev + n) 10080 ≤ 10080 := by
  refine ⟨?_, ?_, min_le_right _ _⟩
  · simp [extend_media_expiry, hget, hkey, hprev]
  · refine ⟨{ r with expiry_minutes := some (min (prev + n) 10080), expiry_extended_at := some iso, updated_at := some iso }, ?_, rfl⟩
    simp [extend_media_expiry, hget, hkey, hprev, update_video, db_get_db_set_self]

theorem extend_expiry_arithmetic_witness :
    db_get [("pub1", sample_record)] "pub1" = some sample_record ∧
    sample_record.admin_key = "adm1" ∧
    sample_record.expiry_minutes = some 60 ∧
    (extend_media_expiry [("pub1", sample_record)] "pub1" "adm1" 30 "iso").1 =
      ApiResult.ok ⟨"pub1", 60, min (60 + 30) 10080, min (60 + 30) 10080 - 60⟩ := by
  refine ⟨by decide, by decide, by decide, ?_⟩
  exact (extend_expiry_arithmetic [("pub1", sample_record)] "pub1" "adm1" "iso"
    sample_record 60 30 (by decide) (by decide) (by decide) (by norm_num) (by norm_num)).1

/-- C10: Stored expiry does not affect issued tokens —
`verify_access_token` is a function of the token, the expected identity,
the access key, the master secret and the clock only; two records that
differ only in `expiry_minutes` give identical verification results, and
a successful extend-expiry leaves the record's `access_key` untouched,
so it neither prolongs nor invalidates any already-issued token. -/
theorem verify_independent_of_stored_expiry (sha256hex : String → String)
    (secret_key : String) (r1 r2 : MediaRecord) (e : Option Int)
    (h12 : r2 = { r1 with expiry_minutes := e })
    (db : DB) (mid akey iso : String) (n : Int) (r : MediaRecord)
    (hget : db_get db mid = some r) (hkey : r.admin_key = akey) :
    (∀ tok vid now, verify_access_token sha256hex secret_key tok vid r2.access_key now =
      verify_access_token sha256hex secret_key tok vid r1.access_key now) ∧
    (∃ r', db_get (extend_media_expiry db mid akey n iso).2 mid = some r' ∧
      r'.access_key = r.access_key ∧
      ∀ tok vid now, verify_access_token sha256hex secret_key tok vid r'.access_key now =
        verify_access_token sha256hex secret_key tok vid r.access_key now) := by
  constructor
  · intro tok vid now
    rw [h12]
  · refine ⟨{ r with expiry_minutes := some (min (r.expiry_minutes.getD 60 + n) 10080), expiry_extended_at := some iso, updated_at := some iso }, ?_, rfl, fun tok vid now => rfl⟩
    simp [extend_media_expiry, hget, hkey, update_video, db_get_db_set_self]

theorem verify_independent_of_stored_expiry_witness :
    ({ sample_record with expiry_minutes := some 777 } : MediaRecord) =
      { sample_record with expiry_minutes := some 777 } ∧
    db_get [("pub1", sample_record)] "pub1" = some sample_record ∧
    sample_record.admin_key = "adm1" ∧
    verify_access_token (fun s => s) "sk" (create_access_token (fun s => s) "sk" "pub1" "x" 60 0 "j")
        "pub1" ({ sample_record with expiry_minutes := some 777 } : MediaRecord).access_key 5 =
      verify_access_token (fun s => s) "sk" (create_access_token (fun s => s) "sk" "pub1" "x" 60 0 "j")
        "pub1" sample_record.access_key 5 := by
  refine ⟨rfl, by decide, by decide, ?_⟩
  exact (verify_independent_of_stored_expiry (fun s => s) "sk" sample_record
    { sample_record with expiry_minutes := some 777 } (some 777) rfl
    [("pub1", sample_record)] "pub1" "adm1" "iso" 30 sample_record
    (by decide) (by decide)).1 (create_access_token (fun s => s) "sk" "pub1" "x" 60 0 "j") "pub1" 5

/-- C8: Admin-gate error semantics and ordering — for all four admin
operations (refresh-token, delete, info, extend-expiry): an unknown
resource identity yields NotFound with the store unchanged, and the
result is the same for every supplied admin key (the key is never
compared); a known identity with a mismatched key yields Forbidden with
the store unchanged; the store can change only when the stored and
supplied admin keys are equal. -/
theorem admin_gate_error_semantics
    (dbA : DB) (idA : String) (hA : db_get dbA idA = none)
    (dbB : DB) (idB : String) (r : MediaRecord) (hB : db_get dbB idB = some r)
    (k : String) (hk : r.admin_key ≠ k)
    (fs_has : String → Bool) (fs : List String)
    (sha256hex : String → String) (secret_key : String)
    (em n now : Int) (jti iso : String) :
    (∀ key, refresh_access_token dbA fs_has sha256hex secret_key idA key em now jti iso =
      (ApiResult.error 404 "Media not found!", dbA)) ∧
    (∀ key, delete_media dbA fs idA key = (ApiResult.error 404 "Media not found!", dbA, fs)) ∧
    (∀ key, get_media_info dbA idA key = (ApiResult.error 404 "Media not found!", dbA)) ∧
    (∀ key, extend_media_expiry dbA idA key n iso = (ApiResult.error 404 "Media not found!", dbA)) ∧
    refresh_access_token dbB fs_has sha256hex secret_key idB k em now jti iso =
      (ApiResult.error 403 "Invalid admin key!", dbB) ∧
    delete_media dbB fs idB k = (ApiResult.error 403 "Invalid admin key!", dbB, fs) ∧
    get_media_info dbB idB k = (ApiResult.error 403 "Invalid admin key!", dbB) ∧
    extend_media_expiry dbB idB k n iso = (ApiResult.error 403 "Invalid admin key!", dbB) ∧
    (∀ db id key, (refresh_access_token db fs_has sha256hex secret_key id key em now jti iso).2 ≠ db →
      ∃ d, db_get db id = some d ∧ d.admin_key = key) ∧
    (∀ db id key, (delete_media db fs id key).2.1 ≠ db →
      ∃ d, db_get db id = some d ∧ d.admin_key = key) ∧
    (∀ db id key, (extend_media_expiry db id key n iso).2 ≠ db →
      ∃ d, db_get db id = some d ∧ d.admin_key = key) ∧
    (∀ db id key, (get_media_info db id key).2 = db) := by
  refine ⟨fun key => by simp [refresh_access_token, hA],
    fun key => by simp [delete_media, hA],
    fun key => by simp [get_media_info, hA],
    fun key => by simp [extend_media_expiry, hA],
    by simp [refresh_access_token, hB, hk],
    by simp [delete_media, hB, hk],
    by simp [get_media_info, hB, hk],
    by simp [extend_media_expiry, hB, hk], ?_, ?_, ?_, ?_⟩
  · intro db id key hne
    match hd : db_get db id with
    | none => exact absurd (by simp [refresh_access_token, hd]) hne
    | some d =>
      by_cases hkey : d.admin_key = key
      · exact ⟨d, rfl, hkey⟩
      · exact absurd (by simp [refresh_access_token, hd, hkey]) hne
  · intro db id key hne
    match hd : db_get db id with
    | none => exact absurd (by simp [delete_media, hd]) hne
    | some d =>
      by_cases hkey : d.admin_key = key
      · exact ⟨d, rfl, hkey⟩
      · exact absurd (by simp [delete_media, hd, hkey]) hne
  · intro db id key hne
    match hd : db_get db id with
    | none => exact absurd (by simp [extend_media_expiry, hd]) hne
    | some d =>
      by_cases hkey : d.admin_key = key
      · exact ⟨d, rfl, hkey⟩
      · exact absurd (by simp [extend_media_expiry, hd, hkey]) hne
  · intro db id key
    match hd : db_get db id with
    | none => simp [get_media_info, hd]
    | some d =>
      by_cases hkey : d.admin_key = key
      · simp [get_media_info, hd, hkey]
      · simp [get_media_info, hd, hkey]

theorem admin_gate_error_semantics_witness :
    db_get [] "absent" = none ∧
    db_get [("pub1", sample_record)] "pub1" = some sample_record ∧
    sample_record.admin_key ≠ "wrong" ∧
    get_media_info [("pub1", sample_record)] "pub1" "wrong" =
      (ApiResult.error 403 "Invalid admin key!", [("pub1", sample_record)]) := by
  refine ⟨rfl, by decide, by decide, ?_⟩
  exact (admin_gate_error_semantics [] "absent" rfl [("pub1", sample_record)] "pub1"
    sample_record (by decide) "wrong" (by decide) (fun _ => true) [] (fun s => s) "sk"
    60 30 0 "j" "iso").2.2.2.2.2.2.1

theorem mem_rmtree (fs : List String) (dir p : String) (h : p ∈ rmtree fs dir) :
    p ≠ dir ∧ py_startswith p (dir ++ "/") = false := by
  unfold rmtree at h
  have h2 := List.of_mem_filter h
  simp at h2
  exact h2

theorem mem_fs_remove (fs : List String) (q p : String) (h : p ∈ fs_remove fs q) :
    p ∈ fs ∧ p ≠ q := by
  unfold fs_remove at h
  refine ⟨List.mem_of_mem_filter h, ?_⟩
  have h2 := List.of_mem_filter h
  simp at h2
  exact h2

theorem upload_media_fail_eq (fs : List String) (db : DB)
    (sha256hex : String → String) (secret_key : String)
    (iid pid akey admkey : String) (em now : Int) (jti iso : String) :
    upload_media fs db sha256hex secret_key iid pid akey admkey em false now jti iso =
      (ApiResult.error 500 "Encoding failed!", upload_fail_fs fs iid, db) := rfl

theorem upload_media_ok_fs_eq (fs : List String) (db : DB)
    (sha256hex : String → String) (secret_key : String)
    (iid pid akey admkey : String) (em now : Int) (jti iso : String) :
    (upload_media fs db sha256hex secret_key iid pid akey admkey em true now jti iso).2.1 =
      upload_ok_fs fs iid := rfl

theorem mem_fs_add (fs : List String) (q : String) : q ∈ fs_add fs q := by
  unfold fs_add
  split
  · simpa using (by assumption : fs.contains q = true)
  · simp

theorem mem_fs_add_of_mem (fs : List String) (q p : String) (h : p ∈ fs) : p ∈ fs_add fs q := by
  unfold fs_add
  split
  · exact h
  · exact List.mem_append_left _ h

/-- C9: Upload cleanup on encoder failure — when the encoder fails the
handler answers 500, the response is produced only after the partial
output directory (and everything below it) is gone, no metadata record
is stored, and the original uploaded file is absent from the final
filesystem on the failure path and on the success path alike. -/
theorem upload_cleanup_on_encoder_failure (fs : List String) (db : DB)
    (sha256hex : String → String) (secret_key : String)
    (iid pid akey admkey : String) (em now : Int) (jti iso : String) :
    (upload_media fs db sha256hex secret_key iid pid akey admkey em false now jti iso).1 =
      ApiResult.error 500 "Encoding failed!" ∧
    (∀ p ∈ (upload_media fs db sha256hex secret_key iid pid akey admkey em false now jti iso).2.1,
      p ≠ path_join HLS_ROOT iid ∧
      py_startswith p (path_join HLS_ROOT iid ++ "/") = false) ∧
    (upload_media fs db sha256hex secret_key iid pid akey admkey em false now jti iso).2.2 = db ∧
    path_join HLS_ROOT (iid ++ ".mp4") ∉
      (upload_media fs db sha256hex secret_key iid pid akey admkey em false now jti iso).2.1 ∧
    path_join HLS_ROOT (iid ++ ".mp4") ∉
      (upload_media fs db sha256hex secret_key iid pid akey admkey em true now jti iso).2.1 := by
  rw [upload_media_fail_eq, upload_media_ok_fs_eq]
  dsimp only
  refine ⟨rfl, ?_, rfl, ?_, ?_⟩
  · intro p hp
    dsimp only [upload_fail_fs] at hp
    split at hp
    · exact mem_rmtree _ _ _ (mem_fs_remove _ _ _ hp).1
    · exact mem_rmtree _ _ _ hp
  · intro hmem
    dsimp only [upload_fail_fs] at hmem
    split at hmem
    · exact (mem_fs_remove _ _ _ hmem).2 rfl
    · rename_i hc
      exact absurd hmem (by simpa using hc)
  · intro hmem
    dsimp only [upload_ok_fs] at hmem
    split at hmem
    · exact (mem_fs_remove _ _ _ hmem).2 rfl
    · rename_i hc
      have hin : path_join HLS_ROOT (iid ++ ".mp4") ∈
          fs_add (fs_add (fs_add fs (path_join HLS_ROOT iid)) (path_join HLS_ROOT (iid ++ ".mp4")))
            (path_join (path_join HLS_ROOT iid) "playlist.m3u8") :=
        mem_fs_add_of_mem _ _ _ (mem_fs_add _ _)
      exact absurd hin (by simpa using hc)

/-- C4: Segment path safety — with the resource present and the token
valid, a name with the wrong extension, a path separator, or a
parent-directory token is rejected with 400; a name passing the string
checks whose canonicalized joined path does not lie strictly inside the
canonicalized storage directory is rejected with 400; a fully validated
name is served only when the canonicalized path exists (404 otherwise);
and `"../secret.ts"`, `"a/b.ts"`, `"x.mp4"` are never served, whatever
the store, filesystem, working directory, or credentials. -/
theorem segment_path_safety (db : DB) (fs_has : String → Bool) (cwd : String)
    (sha256hex : String → String) (secret_key : String)
    (mid : String) (d : MediaRecord) (tok : Token) (now : Int)
    (hget : db_get db mid = some d)
    (hver : verify_access_token sha256hex secret_key tok mid d.access_key now = true) :
    (∀ name, py_endswith name ".ts" = false →
      get_segment db fs_has cwd sha256hex secret_key mid name tok now =
        ApiResult.error 400 "Invalid segment name!") ∧
    (∀ name, str_contains name "/" = true →
      get_segment db fs_has cwd sha256hex secret_key mid name tok now =
        ApiResult.error 400 "Invalid segment name!") ∧
    (∀ name, str_contains name ".." = true →
      get_segment db fs_has cwd sha256hex secret_key mid name tok now =
        ApiResult.error 400 "Invalid segment name!") ∧
    (∀ name, py_endswith name ".ts" = true → str_contains name "/" = false →
      str_contains name ".." = false →
      py_startswith
          (abspath cwd (normpath (path_join (path_join HLS_ROOT d.internal_id) name)))
          (abspath cwd (path_join HLS_ROOT d.internal_id) ++ "/") = false →
      get_segment db fs_has cwd sha256hex secret_key mid name tok now =
        ApiResult.error 400 "Invalid segment path!") ∧
    (∀ name, py_endswith name ".ts" = true → str_contains name "/" = false →
      str_contains name ".." = false →
      py_startswith
          (abspath cwd (normpath (path_join (path_join HLS_ROOT d.internal_id) name)))
          (abspath cwd (path_join HLS_ROOT d.internal_id) ++ "/") = true →
      fs_has (abspath cwd (normpath (path_join (path_join HLS_ROOT d.internal_id) name))) = false →
      get_segment db fs_has cwd sha256hex secret_key mid name tok now =
        ApiResult.error 404 "Segment not found") ∧
    (∀ name, py_endswith name ".ts" = true → str_contains name "/" = false →
      str_contains name ".." = false →
      py_startswith
          (abspath cwd (normpath (path_join (path_join HLS_ROOT d.internal_id) name)))
          (abspath cwd (path_join HLS_ROOT d.internal_id) ++ "/") = true →
      fs_has (abspath cwd (normpath (path_join (path_join HLS_ROOT d.internal_id) name))) = true →
      get_segment db fs_has cwd sha256hex secret_key mid name tok now =
        ApiResult.ok (abspath cwd (normpath (path_join (path_join HLS_ROOT d.internal_id) name)))) ∧
    (∀ db2 fs2 cwd2 sha2 sk2 mid2 tok2 now2 p,
      get_segment db2 fs2 cwd2 sha2 sk2 mid2 "../secret.ts" tok2 now2 ≠ ApiResult.ok p) ∧
    (∀ db2 fs2 cwd2 sha2 sk2 mid2 tok2 now2 p,
      get_segment db2 fs2 cwd2 sha2 sk2 mid2 "a/b.ts" tok2 now2 ≠ ApiResult.ok p) ∧
    (∀ db2 fs2 cwd2 sha2 sk2 mid2 tok2 now2 p,
      get_segment db2 fs2 cwd2 sha2 sk2 mid2 "x.mp4" tok2 now2 ≠ ApiResult.ok p) := by
  refine ⟨?_, ?_, ?_, ?_, ?_, ?_, ?_, ?_, ?_⟩
  · intro name h
    simp [get_segment, hget, hver, h]
  · intro name h
    simp [get_segment, hget, hver, h]
  · intro name h
    simp [get_segment, hget, hver, h]
  · intro name h1 h2 h3 h4
    simp [get_segment, hget, hver, h1, h2, h3, h4]
  · intro name h1 h2 h3 h4 h5
    simp [get_segment, hget, hver, h1, h2, h3, h4, h5]
  · intro name h1 h2 h3 h4 h5
    simp [get_segment, hget, hver, h1, h2, h3, h4, h5]
  · intro db2 fs2 cwd2 sha2 sk2 mid2 tok2 now2 p
    unfold get_segment
    match hd : db_get db2 mid2 with
    | none => simp
    | some d2 =>
      by_cases hv : verify_access_token sha2 sk2 tok2 mid2 d2.access_key now2
      · simp [hv, show str_contains "../secret.ts" ".." = true from by decide]
      · simp [hv]
  · intro db2 fs2 cwd2 sha2 sk2 mid2 tok2 now2 p
    unfold get_segment
    match hd : db_get db2 mid2 with
    | none => simp
    | some d2 =>
      by_cases hv : verify_access_token sha2 sk2 tok2 mid2 d2.access_key now2
      · simp [hv, show str_contains "a/b.ts" "/" = true from by decide]
      · simp [hv]
  · intro db2 fs2 cwd2 sha2 sk2 mid2 tok2 now2 p
    unfold get_segment
    match hd : db_get db2 mid2 with
    | none => simp
    | some d2 =>
      by_cases hv : verify_access_token sha2 sk2 tok2 mid2 d2.access_key now2
      · simp [hv, show py_endswith "x.mp4" ".ts" = false from by decide]
      · simp [hv]

theorem segment_path_safety_witness :
    db_get [("pub1", sample_record)] "pub1" = some sample_record ∧
    verify_access_token (fun s => s) "sk" sample_token "pub1" sample_record.access_key 5 = true ∧
    get_segment [("pub1", sample_record)]
        (fun p => p == "/srv/media/hls/int1/segment3.ts") "/srv"
        (fun s => s) "sk" "pub1" "segment3.ts" sample_token 5 =
      ApiResult.ok
        (abspath "/srv" (normpath (path_join (path_join HLS_ROOT sample_record.internal_id) "segment3.ts"))) := by
  refine ⟨by decide, by decide, ?_⟩
  exact (segment_path_safety [("pub1", sample_record)]
    (fun p => p == "/srv/media/hls/int1/segment3.ts") "/srv" (fun s => s) "sk"
    "pub1" sample_record sample_token 5 (by decide) (by decide)).2.2.2.2.2.1
    "segment3.ts" (by decide) (by decide) (by decide) (by decide) (by decide)

/-- C5: Store crash atomicity — starting from any state with no stale
backup file (the invariant every completed or handled save
re-establishes), whichever step of `_save_database` an exception
interrupts, a subsequent `_load_database` sees either the mapping that
loading returned before the save or the complete new mapping, never a
truncated document; an uninterrupted save is loaded back as the new
mapping; recovery runs through the backup-then-replace path embodied in
`backup_step`/`restore_step`, and every outcome leaves no backup behind
except an interruption of the initial rename, which changes nothing at
all. -/
theorem save_database_crash_atomicity (fs : StoreFs) (data : DB)
    (intr : Option SaveInterrupt) (hb : fs.backup_file = none) :
    (load_database (save_database fs data intr).1 = load_database fs ∨
      load_database (save_database fs data intr).1 = data) ∧
    load_database (save_database fs data none).1 = data ∧
    (save_database fs data intr).1.backup_file = none := by
  refine ⟨?_, rfl, ?_⟩
  · match intr with
    | none => right; rfl
    | some SaveInterrupt.atRename => left; rfl
    | some (SaveInterrupt.duringWrite k) =>
      match fs, hb with
      | ⟨none, _⟩, rfl => left; rfl
      | ⟨some c, _⟩, rfl => left; simp [save_database, backup_step, restore_step, load_database]
    | some SaveInterrupt.atBackupRemove =>
      match fs, hb with
      | ⟨none, _⟩, rfl => right; rfl
      | ⟨some c, _⟩, rfl => left; simp [save_database, backup_step, restore_step, load_database]
  · match intr with
    | none => rfl
    | some SaveInterrupt.atRename => exact hb
    | some (SaveInterrupt.duringWrite k) =>
      match fs, hb with
      | ⟨none, _⟩, rfl => rfl
      | ⟨some c, _⟩, rfl => rfl
    | some SaveInterrupt.atBackupRemove =>
      match fs, hb with
      | ⟨none, _⟩, rfl => rfl
      | ⟨some c, _⟩, rfl => rfl

theorem save_database_crash_atomicity_witness :
    (StoreFs.mk (some (FileData.whole [("pub1", sample_record)])) none).backup_file = none ∧
    (load_database
        (save_database ⟨some (FileData.whole [("pub1", sample_record)]), none⟩
          [] (some (SaveInterrupt.duringWrite 3))).1 =
      load_database ⟨some (FileData.whole [("pub1", sample_record)]), none⟩ ∨
      load_database
        (save_database ⟨some (FileData.whole [("pub1", sample_record)]), none⟩
          [] (some (SaveInterrupt.duringWrite 3))).1 = []) :=
  ⟨rfl, (save_database_crash_atomicity ⟨some (FileData.whole [("pub1", sample_record)]), none⟩
    [] (some (SaveInterrupt.duringWrite 3)) rfl).1⟩

theorem splitOnChar_not_mem (c : Char) (l : List Char) (h : c ∉ l) :
    splitOnChar c l = [l] := by
  induction l with
  | nil => rfl
  | cons x xs ih =>
    simp only [List.mem_cons, not_or] at h
    have hx : x ≠ c := fun he => h.1 he.symm
    have := ih h.2
    simp [splitOnChar, hx, this]

theorem splitOnChar_append (c : Char) (l1 l2 : List Char) (h : c ∉ l1) :
    splitOnChar c (l1 ++ c :: l2) = l1 :: splitOnChar c l2 := by
  induction l1 with
  | nil => simp [splitOnChar]
  | cons x xs ih =>
    simp only [List.mem_cons, not_or] at h
    have hx : x ≠ c := fun he => h.1 he.symm
    have := ih h.2
    simp [splitOnChar, hx, this]

theorem tokenParams_of_shape (path tok : String)
    (hq : '?' ∉ path.toList)
    (h1 : '?' ∉ tok.toList) (h2 : '&' ∉ tok.toList) (h3 : '=' ∉ tok.toList) :
    tokenParams (path ++ "?token=" ++ tok) = [tok.toList] := by
  have happ : ∀ s t : String, (s ++ t).toList = s.toList ++ t.toList := fun s t => rfl
  have hlit : "?token=".toList = '?' :: "token=".toList := by decide
  have hL : (path ++ "?token=" ++ tok).toList
      = path.toList ++ '?' :: ("token=".toList ++ tok.toList) := by
    rw [happ, happ, hlit, List.append_assoc]
    rfl
  have hq2 : '?' ∉ ("token=".toList ++ tok.toList) := by
    intro hmem
    rcases List.mem_append.mp hmem with hmem | hmem
    · revert hmem; decide
    · exact h1 hmem
  have hsplit : splitOnChar '?' ((path ++ "?token=" ++ tok).toList)
      = [path.toList, "token=".toList ++ tok.toList] := by
    rw [hL, splitOnChar_append _ _ _ hq, splitOnChar_not_mem _ _ hq2]
  have hamp : '&' ∉ ("token=".toList ++ tok.toList) := by
    intro hmem
    rcases List.mem_append.mp hmem with hmem | hmem
    · revert hmem; decide
    · exact h2 hmem
  have heq : ("token=".toList ++ tok.toList) = "token".toList ++ '=' :: tok.toList := rfl
  have hne : '=' ∉ "token".toList := by decide
  have hqOf : queryOf ((path ++ "?token=" ++ tok).toList)
      = some ("token=".toList ++ tok.toList) := by
    unfold queryOf
    rw [hsplit]
  have hsplit2 : splitOnChar '=' ("token=".toList ++ tok.toList)
      = ["token".toList, tok.toList] := by
    rw [heq, splitOnChar_append _ _ _ hne, splitOnChar_not_mem _ _ h3]
  unfold tokenParams
  rw [hqOf]
  dsimp only
  rw [splitOnChar_not_mem _ _ hamp, List.filterMap_cons]
  rw [hsplit2]
  simp

theorem getD_map_str (f : String → String) (l : List String) (i : Nat) (h : i < l.length) :
    (l.map f).getD i "" = f (l.getD i "") := by
  induction l generalizing i with
  | nil => simp at h
  | cons x xs ih =>
    cases i with
    | zero => rfl
    | succ n => simpa using ih n (by simpa using h)

/-- C6 counterexample: a non-chunk line with leading whitespace is not
passed through with only its line ending normalized — `line.strip()`
also removes the leading spaces, so the rewriter's output line differs
from the claimed pass-through. -/
theorem rewrite_playlist_not_passthrough :
    rewrite_playlist_with_auth_urls ["  #EXTM3U\n"] "m" "t" = ["#EXTM3U\n"] ∧
    rewrite_playlist_with_auth_urls ["  #EXTM3U\n"] "m" "t" ≠ ["  #EXTM3U\n"] := by
  constructor
  · decide
  · decide

/-- C6 (amended): the rewriter preserves line count and ordering; a line
whose stripped content ends in `.ts` is replaced by exactly
`/stream/{media_id}/{chunk}?token={token}` plus a single newline, and
that line carries exactly one `token=` query parameter, equal to the
supplied token, whenever the identity, chunk name and token avoid the
URL metacharacters `?`, `&`, `=`; every other line is emitted as its
content with leading and trailing whitespace stripped plus a single
newline (not merely with its line ending normalized). -/
theorem rewrite_playlist_structure (lines : List String) (mid tok : String) :
    (rewrite_playlist_with_auth_urls lines mid tok).length = lines.length ∧
    (∀ i, i < lines.length →
      (py_endswith (py_strip (lines.getD i "")) ".ts" = true →
        (rewrite_playlist_with_auth_urls lines mid tok).getD i "" =
          "/stream/" ++ mid ++ "/" ++ last_path_component (py_strip (lines.getD i "")) ++
            "?token=" ++ tok ++ "\n") ∧
      (py_endswith (py_strip (lines.getD i "")) ".ts" = false →
        (rewrite_playlist_with_auth_urls lines mid tok).getD i "" =
          py_strip (lines.getD i "") ++ "\n")) ∧
    (∀ name : String, '?' ∉ mid.toList → '?' ∉ name.toList →
      '?' ∉ tok.toList → '&' ∉ tok.toList → '=' ∉ tok.toList →
      tokenParams ("/stream/" ++ mid ++ "/" ++ name ++ "?token=" ++ tok) = [tok.toList]) := by
  refine ⟨by simp [rewrite_playlist_with_auth_urls], ?_, ?_⟩
  · intro i hi
    constructor
    · intro hts
      unfold rewrite_playlist_with_auth_urls
      rw [getD_map_str _ _ _ hi]
      simp only [hts]
      rfl
    · intro hts
      unfold rewrite_playlist_with_auth_urls
      rw [getD_map_str _ _ _ hi]
      simp only [hts]
      rfl
  · intro name hmid hname h1 h2 h3
    apply tokenParams_of_shape _ _ _ h1 h2 h3
    intro hmem
    have happ : ∀ s t : String, (s ++ t).toList = s.toList ++ t.toList := fun s t => rfl
    rw [happ, happ, happ] at hmem
    simp only [List.mem_append] at hmem
    rcases hmem with ((hmem | hmem) | hmem) | hmem
    · revert hmem; decide
    · exact hmid hmem
    · revert hmem; decide
    · exact hname hmem

theorem rewrite_playlist_structure_witness :
    py_endswith (py_strip (["seg/segment3.ts\n"].getD 0 "")) ".ts" = true ∧
    (rewrite_playlist_with_auth_urls ["seg/segment3.ts\n"] "m1" "t1").getD 0 "" =
      "/stream/" ++ "m1" ++ "/" ++ last_path_component (py_strip (["seg/segment3.ts\n"].getD 0 "")) ++
        "?token=" ++ "t1" ++ "\n" ∧
    tokenParams ("/stream/" ++ "m1" ++ "/" ++ "segment3.ts" ++ "?token=" ++ "t1") =
      ["t1".toList] := by
  refine ⟨by decide, ?_, ?_⟩
  · exact (((rewrite_playlist_structure ["seg/segment3.ts\n"] "m1" "t1").2.1 0 (by decide)).1
      (by decide))
  · exact (rewrite_playlist_structure ["seg/segment3.ts\n"] "m1" "t1").2.2 "segment3.ts"
      (by decide) (by decide) (by decide) (by decide) (by decide)

end PyHLS
